import Mathlib

/-!
Formal model of the core simulation of the vibe-shooter repository.

The definitions below are a shallow embedding of the per-frame simulation
engine found in `src/components/GameCanvas.tsx` (the `update` function and
its helpers), of the anomaly service `src/services/geminiService.ts`
(`generateAnomaly`), of the application-level anomaly flow
(`handleTriggerAnomaly` / `handleOptionSelect`), and of the data model of
`src/types.ts` and the constants of `src/constants.ts`.

Modelling conventions:
* JavaScript numbers are modelled as exact rationals (`ℚ`); claims checked
  here do not depend on binary floating-point rounding.
* `Math.random()` is modelled as a stream `Env.rand : ℕ → ℚ` of draws,
  consumed in source order through the counter `SimState.rk`; `Date.now()`
  is the environment field `Env.now`.
* The transcendental functions `Math.sqrt`, `Math.atan2`, `Math.cos`,
  `Math.sin` are carried as abstract fields of `Env`; no claim below
  depends on their values.  The comparison `Math.hypot dx dy < r` is
  translated to the exact equivalent `0 < r ∧ dx^2 + dy^2 < r^2`.
* Mutation of refs becomes explicit state threading through `SimState`;
  `setGameState(GameState.GAME_OVER)` and `triggerAnomaly()` become the
  request flags `gameOverReq` and `anomalyReq`.
* In-place `splice(k, 1)` on the entity array becomes `List.eraseIdx k`,
  `push` becomes append; the backwards `for` loop of `update` becomes
  `runLoop`, iterating the index from `length - 1` down to `0` exactly as
  the source does (the initial length is captured once).
-/

namespace VibeShooter

/-- Game states, from `src/types.ts` (`enum GameState`). -/
inductive GameState where
  | MENU
  | LOADING
  | PLAYING
  | PAUSED
  | ANOMALY
  | GAME_OVER
deriving DecidableEq, Repr

/-- Entity kinds, from `src/types.ts` (`enum EntityType`), plus
`HEALTH_PICKUP` which `GameCanvas.tsx` uses for the health pickups. -/
inductive EntityType where
  | PLAYER
  | ENEMY
  | BULLET
  | PARTICLE
  | SCRAP
  | ANOMALY_CORE
  | HEALTH_PICKUP
deriving DecidableEq, Repr

/-- Bullet owner tag, from `Entity.owner : 'PLAYER' | 'ENEMY'`. -/
inductive Owner where
  | PLAYER
  | ENEMY
deriving DecidableEq, Repr

/-- 2D vector, from `interface Vector2`. -/
structure Vector2 where
  x : ℚ
  y : ℚ
deriving DecidableEq, Repr

/-- Entity record, from `interface Entity` in `src/types.ts`.  Optional
fields are `Option`s; absent (`undefined`) is `none`. -/
structure Entity where
  id : String
  type : EntityType
  pos : Vector2
  vel : Vector2
  radius : ℚ
  color : String
  health : ℚ
  maxHealth : ℚ
  rotation : ℚ
  life : Option ℚ := none
  maxLife : Option ℚ := none
  value : Option ℚ := none
  owner : Option Owner := none
  lastShot : Option ℚ := none
deriving DecidableEq, Repr

/-- HUD stats projection, from `interface PlayerStats`. -/
structure PlayerStats where
  health : ℚ
  maxHealth : ℚ
  scrap : ℚ
  score : ℚ
  level : ℚ
deriving DecidableEq, Repr

/-- Anomaly option effect tags, from `AnomalyOption.effect`. -/
inductive AnomalyEffect where
  | HEAL
  | DAMAGE
  | SCRAP
  | WEAPON
  | NOTHING
deriving DecidableEq, Repr

/-- One anomaly choice, from `interface AnomalyOption`. -/
structure AnomalyOption where
  text : String
  outcomeDescription : String
  effect : AnomalyEffect
  value : ℚ
deriving DecidableEq, Repr

/-- Anomaly event, from `interface AnomalyEvent`. -/
structure AnomalyEvent where
  title : String
  description : String
  options : List AnomalyOption
deriving DecidableEq, Repr

/-! Constants from `src/constants.ts`.  `CANVAS_WIDTH`/`CANVAS_HEIGHT` are
`window.innerWidth`/`window.innerHeight` and live in `Env` below. -/

/-- `PLAYER_SPEED = 5` (unused by `update`). -/
def PLAYER_SPEED : ℚ := 5

/-- `BULLET_SPEED = 12`. -/
def BULLET_SPEED : ℚ := 12

/-- `ENEMY_SPEED = 2`. -/
def ENEMY_SPEED : ℚ := 2

/-- `FRICTION = 0.95`. -/
def FRICTION : ℚ := 0.95

/-- `COLORS.PLAYER`. -/
def COLORS_PLAYER : String := "#06b6d4"

/-- `COLORS.ENEMY`. -/
def COLORS_ENEMY : String := "#ef4444"

/-- `COLORS.BULLET`. -/
def COLORS_BULLET : String := "#fef08a"

/-- `COLORS.SCRAP`. -/
def COLORS_SCRAP : String := "#fbbf24"

/-- `COLORS.ANOMALY`. -/
def COLORS_ANOMALY : String := "#a855f7"

/-- `COLORS.HEALTH`. -/
def COLORS_HEALTH : String := "#22c55e"

/-- Per-tick environment: wall clock, window geometry, the random stream,
the abstract transcendental functions, and the input state (keyboard,
mouse, bound virtual-joystick touches). -/
structure Env where
  now : ℚ
  width : ℚ
  height : ℚ
  rand : ℕ → ℚ
  sqrt : ℚ → ℚ
  atan2 : ℚ → ℚ → ℚ
  cos : ℚ → ℚ
  sin : ℚ → ℚ
  keyW : Bool
  keyA : Bool
  keyS : Bool
  keyD : Bool
  mouse : Vector2
  moveTouch : Option Vector2
  aimTouch : Option Vector2

/-- The mutable refs of `GameCanvas` that the simulation step reads and
writes: the entity collection, the player record, the authoritative score,
the scrap stat (maintained through `setStats`), fire/spawn timers, the
anomaly watermark, the position in the random stream, and the two
state-transition requests emitted by the step. -/
structure SimState where
  entities : List Entity
  player : Entity
  score : ℚ
  scrapStat : ℚ
  lastShotTime : ℚ
  enemySpawnTimer : ℕ
  healthSpawnTimer : ℕ
  lastAnomalyScore : ℚ
  rk : ℕ
  gameOverReq : Bool := false
  anomalyReq : Bool := false
deriving Repr

/-- Advance an entity one tick by its velocity (`ent.pos.x += ent.vel.x`,
`ent.pos.y += ent.vel.y`). -/
def moveEntity (e : Entity) : Entity :=
  { e with pos := ⟨e.pos.x + e.vel.x, e.pos.y + e.vel.y⟩ }

/-- The scrap magnet lerp: move 10% of the way towards `p`. -/
def magnetLerp (p : Vector2) (e : Entity) : Entity :=
  { e with pos := ⟨e.pos.x + (p.x - e.pos.x) * 0.1, e.pos.y + (p.y - e.pos.y) * 0.1⟩ }

/-- Squared Euclidean distance. -/
def dist2 (a b : Vector2) : ℚ :=
  (a.x - b.x) * (a.x - b.x) + (a.y - b.y) * (a.y - b.y)

/-- Exact translation of `Math.hypot(a - b) < r` for real arguments:
the hypotenuse is nonnegative, so the comparison holds iff `r` is positive
and the squared distance is below `r^2`. -/
def hypLt (a b : Vector2) (r : ℚ) : Bool :=
  decide (0 < r) && decide (dist2 a b < r * r)

/-- JavaScript `v || d` for an optional numeric field: `undefined` and `0`
are falsy. -/
def jsOrQ : Option ℚ → ℚ → ℚ
  | some v, d => if v = 0 then d else v
  | none, d => d

/-- `if (ent.life) ent.life--`: decrement only when the field is present
and nonzero (truthy). -/
def decLife : Option ℚ → Option ℚ
  | some v => if v = 0 then some 0 else some (v - 1)
  | none => none

/-- `ent.life !== undefined && ent.life <= 0`. -/
def lifeExpired : Option ℚ → Bool
  | some v => decide (v ≤ 0)
  | none => false

/-- Decimal-free rendering of a rational for entity id strings. -/
def ratStr (q : ℚ) : String := toString q

/-- One particle of `createParticles`: velocity components, radius and
lifetime each consume one random draw (index `k`…`k+3`). -/
def particleAt (env : Env) (pos : Vector2) (color : String) (k idx : ℕ) : Entity :=
  { id := "part-" ++ ratStr env.now ++ "-" ++ toString idx
    type := EntityType.PARTICLE
    pos := pos
    vel := ⟨(env.rand k - 0.5) * 10, (env.rand (k + 1) - 0.5) * 10⟩
    radius := env.rand (k + 2) * 3 + 1
    color := color
    health := 1
    maxHealth := 1
    rotation := 0
    life := some (30 + env.rand (k + 3) * 20) }

/-- `createParticles(pos, count, color)`: pushes `count` particles; the
random stream advances by 4 per particle. -/
def createParticles (env : Env) (pos : Vector2) (color : String) (k idx : ℕ) :
    ℕ → List Entity
  | 0 => []
  | n + 1 => particleAt env pos color k idx :: createParticles env pos color (k + 4) (idx + 1) n

/-- Player movement, boundary clamping and aim rotation (`update` steps 1
and 2): keyboard/virtual-joystick acceleration, normalization, friction,
integration, clamp to the canvas, rotation towards mouse or aim-joystick. -/
def movePlayer (env : Env) (p : Entity) : Entity :=
  let accx : ℚ := (if env.keyA then (-1 : ℚ) else 0) + (if env.keyD then 1 else 0)
  let accy : ℚ := (if env.keyW then (-1 : ℚ) else 0) + (if env.keyS then 1 else 0)
  let acc1 : Vector2 :=
    match env.moveTouch with
    | some t =>
      let dx := t.x - env.width / 4
      let dy := t.y - (env.height - 150)
      let len := env.sqrt (dx * dx + dy * dy)
      if len > 10 then ⟨dx / len, dy / len⟩ else ⟨accx, accy⟩
    | none => ⟨accx, accy⟩
  let len := env.sqrt (acc1.x * acc1.x + acc1.y * acc1.y)
  let acc2 : Vector2 := if len > 0 then ⟨acc1.x / len, acc1.y / len⟩ else acc1
  let vx := (p.vel.x + acc2.x * 0.5) * FRICTION
  let vy := (p.vel.y + acc2.y * 0.5) * FRICTION
  let px := max p.radius (min (env.width - p.radius) (p.pos.x + vx))
  let py := max p.radius (min (env.height - p.radius) (p.pos.y + vy))
  let rot :=
    match env.aimTouch with
    | none => env.atan2 (env.mouse.y - py) (env.mouse.x - px)
    | some t => env.atan2 (t.y - (env.height - 150)) (t.x - env.width / 4 * 3)
  { p with vel := ⟨vx, vy⟩, pos := ⟨px, py⟩, rotation := rot }

/-- Automatic player fire (`update` step 3): a PLAYER-owned bullet from the
ship's nose once 150ms have elapsed. -/
def shootPhase (env : Env) (s : SimState) : SimState :=
  if env.now - s.lastShotTime > 150 then
    let bx := env.cos s.player.rotation
    let byy := env.sin s.player.rotation
    let bullet : Entity :=
      { id := "bullet-" ++ ratStr env.now
        type := EntityType.BULLET
        pos := ⟨s.player.pos.x + bx * 30, s.player.pos.y + byy * 30⟩
        vel := ⟨bx * BULLET_SPEED, byy * BULLET_SPEED⟩
        radius := 4
        color := COLORS_BULLET
        health := 1
        maxHealth := 1
        rotation := s.player.rotation
        life := some 60
        owner := some Owner.PLAYER }
    { s with entities := s.entities ++ [bullet], lastShotTime := env.now }
  else s

/-- The enemy spawned by the spawner: edge `⌊4·u⌋` (0 top, 1 right,
2 bottom, else left), coordinate uniform along the edge, 30 units outside
the bound, health 20/20, value 10, staggered initial `lastShot`.  Consumes
the draws `k`…`k+3` (edge, coordinate, id suffix, stagger). -/
def spawnedEnemy (env : Env) (k : ℕ) : Entity :=
  let edge : ℤ := Rat.floor (env.rand k * 4)
  let pos : Vector2 :=
    if edge = 0 then ⟨env.rand (k + 1) * env.width, -30⟩
    else if edge = 1 then ⟨env.width + 30, env.rand (k + 1) * env.height⟩
    else if edge = 2 then ⟨env.rand (k + 1) * env.width, env.height + 30⟩
    else ⟨-30, env.rand (k + 1) * env.height⟩
  { id := "enemy-" ++ ratStr env.now ++ "-" ++ ratStr (env.rand (k + 2))
    type := EntityType.ENEMY
    pos := pos
    vel := ⟨0, 0⟩
    radius := 15
    color := COLORS_ENEMY
    health := 20
    maxHealth := 20
    rotation := 0
    value := some 10
    lastShot := some (env.now + env.rand (k + 3) * 1000) }

/-- Enemy spawning (`update`, "Enemy Spawning"): increment the counter and
spawn one enemy when it exceeds 60, resetting it. -/
def enemySpawnPhase (env : Env) (s : SimState) : SimState :=
  let t := s.enemySpawnTimer + 1
  if 60 < t then
    { s with enemySpawnTimer := 0
             entities := s.entities ++ [spawnedEnemy env s.rk]
             rk := s.rk + 4 }
  else { s with enemySpawnTimer := t }

/-- Health pickup spawning (`update`, "Health Pickup Spawning"): when the
counter exceeds 900, reset it and with probability 0.7 (`rand > 0.3`) push
one pickup at a random interior point, heal value 20. -/
def healthSpawnPhase (env : Env) (s : SimState) : SimState :=
  let t := s.healthSpawnTimer + 1
  if 900 < t then
    if env.rand s.rk > 0.3 then
      let pickup : Entity :=
        { id := "health-" ++ ratStr env.now
          type := EntityType.HEALTH_PICKUP
          pos := ⟨env.rand (s.rk + 1) * (env.width - 100) + 50,
                  env.rand (s.rk + 2) * (env.height - 100) + 50⟩
          vel := ⟨0, 0⟩
          radius := 15
          color := COLORS_HEALTH
          health := 1
          maxHealth := 1
          rotation := 0
          value := some 20 }
      { s with healthSpawnTimer := 0, entities := s.entities ++ [pickup], rk := s.rk + 3 }
    else { s with healthSpawnTimer := 0, rk := s.rk + 1 }
  else { s with healthSpawnTimer := t }

/-- Anomaly-core spawning (`update`, "Anomalies"): when the authoritative
score has advanced 500 past the watermark, move the watermark to the
current score immediately and push one `ANOMALY_CORE` at a random interior
point. -/
def anomalyPhase (env : Env) (s : SimState) : SimState :=
  if 500 ≤ s.score - s.lastAnomalyScore then
    let core : Entity :=
      { id := "anomaly-" ++ ratStr env.now
        type := EntityType.ANOMALY_CORE
        pos := ⟨env.rand s.rk * (env.width - 100) + 50,
                env.rand (s.rk + 1) * (env.height - 100) + 50⟩
        vel := ⟨0, 0⟩
        radius := 25
        color := COLORS_ANOMALY
        health := 1
        maxHealth := 1
        rotation := 0 }
    { s with lastAnomalyScore := s.score, entities := s.entities ++ [core], rk := s.rk + 2 }
  else s

/-- Bullet branch of the per-entity loop: lifetime decrement and expiry
removal; an ENEMY-owned bullet touching the player deals 5 damage, spawns
3 damage particles, is removed, and requests GAME_OVER at health ≤ 0. -/
def bulletStep (env : Env) (s : SimState) (i : ℕ) (e : Entity) : SimState :=
  let e1 := { e with life := decLife e.life }
  let es1 := s.entities.set i e1
  if lifeExpired e1.life then { s with entities := es1.eraseIdx i }
  else if decide (e1.owner = some Owner.ENEMY) &&
          hypLt s.player.pos e1.pos (s.player.radius + e1.radius) then
    let p1 : Entity := { s.player with health := s.player.health - 5 }
    let parts := createParticles env e1.pos COLORS_PLAYER s.rk 0 3
    let s1 := { s with player := p1, entities := (es1 ++ parts).eraseIdx i, rk := s.rk + 12 }
    if p1.health ≤ 0 then { s1 with gameOverReq := true } else s1
  else { s with entities := es1 }

/-- `ent.lastShot && now - ent.lastShot > 1000` (0 is falsy). -/
def fireCond (env : Env) (e : Entity) : Bool :=
  match e.lastShot with
  | some t => decide (t ≠ 0) && decide (env.now - t > 1000)
  | none => false

/-- The bullet an enemy fires towards the player (speed `0.8 ×` player
bullet speed, lifetime 80); one random draw for the id suffix. -/
def enemyBullet (env : Env) (e : Entity) (k : ℕ) : Entity :=
  let bx := env.cos e.rotation
  let byy := env.sin e.rotation
  { id := "bullet-enemy-" ++ ratStr env.now ++ "-" ++ ratStr (env.rand k)
    type := EntityType.BULLET
    pos := ⟨e.pos.x + bx * 20, e.pos.y + byy * 20⟩
    vel := ⟨bx * (BULLET_SPEED * 0.8), byy * (BULLET_SPEED * 0.8)⟩
    radius := 4
    color := "#ef4444"
    health := 1
    maxHealth := 1
    rotation := e.rotation
    life := some 80
    owner := some Owner.ENEMY }

/-- Does the entity at index `j` collide with enemy `e` as a PLAYER bullet? -/
def bulletHits (es : List Entity) (e : Entity) (j : ℕ) : Bool :=
  match es.get? j with
  | some b =>
    decide (b.type = EntityType.BULLET) && decide (b.owner = some Owner.PLAYER) &&
      hypLt e.pos b.pos (e.radius + b.radius)
  | none => false

/-- The inner collision scan of the enemy block: indices from `j` down to
`0`, first hit wins (the source `break`s after it). -/
def findHit (es : List Entity) (e : Entity) : ℕ → Option ℕ
  | 0 => if bulletHits es e 0 then some 0 else none
  | j + 1 => if bulletHits es e (j + 1) then some (j + 1) else findHit es e j

/-- The scrap entity dropped by a killed enemy (value 5, small random
drift); consumes the draws `k`, `k+1`. -/
def scrapDropOf (env : Env) (pos : Vector2) (k : ℕ) : Entity :=
  { id := "scrap-" ++ ratStr env.now
    type := EntityType.SCRAP
    pos := pos
    vel := ⟨env.rand k - 0.5, env.rand (k + 1) - 0.5⟩
    radius := 8
    color := COLORS_SCRAP
    health := 1
    maxHealth := 1
    rotation := 0
    value := some 5 }

/-- "Collision: Bullet vs Enemy (Only Player Bullets)": scan for the first
colliding PLAYER bullet; on hit deal 10 damage to the enemy and splice the
bullet out; if the enemy's health drops to ≤ 0, spawn 8 explosion
particles, drop one scrap, add the enemy's value to the score and splice
index `i` out (exactly as the source does, even though an earlier splice
below `i` may have shifted the array). -/
def enemyScan (env : Env) (s : SimState) (i : ℕ) (e : Entity) : SimState :=
  match findHit s.entities e (s.entities.length - 1) with
  | none => s
  | some j =>
    let e1 := { e with health := e.health - 10 }
    let es1 := (s.entities.set i e1).eraseIdx j
    if e1.health ≤ 0 then
      let parts := createParticles env e1.pos COLORS_ENEMY s.rk 0 8
      let drop := scrapDropOf env e1.pos (s.rk + 32)
      { s with entities := ((es1 ++ parts) ++ [drop]).eraseIdx i
               score := s.score + jsOrQ e.value 10
               rk := s.rk + 34 }
    else { s with entities := es1 }

/-- Homing: recompute the enemy's velocity towards the player and face
it. -/
def homedEnemy (env : Env) (p : Entity) (e : Entity) : Entity :=
  let angle := env.atan2 (p.pos.y - e.pos.y) (p.pos.x - e.pos.x)
  { e with vel := ⟨env.cos angle * ENEMY_SPEED, env.sin angle * ENEMY_SPEED⟩
           rotation := angle }

/-- Rate-limited enemy fire: when ≥ 1000ms have elapsed, stamp `lastShot`
and push the enemy bullet; returns the updated state and enemy. -/
def enemyPostFire (env : Env) (s1 : SimState) (i : ℕ) (e1 : Entity) : SimState × Entity :=
  if fireCond env e1 then
    let e2 := { e1 with lastShot := some env.now }
    ({ s1 with entities := (s1.entities.set i e2) ++ [enemyBullet env e2 s1.rk]
               rk := s1.rk + 1 }, e2)
  else (s1, e1)

/-- Enemy resolution after homing and fire: body collision with the player
(10 damage, 5 particles, removal, GAME_OVER check at health ≤ 0),
otherwise the player-bullet scan. -/
def enemyResolve (env : Env) (s2 : SimState) (i : ℕ) (e2 : Entity) : SimState :=
  if hypLt s2.player.pos e2.pos (s2.player.radius + e2.radius) then
    let p1 : Entity := { s2.player with health := s2.player.health - 10 }
    let parts := createParticles env e2.pos COLORS_PLAYER s2.rk 0 5
    let s3 := { s2 with player := p1, entities := (s2.entities ++ parts).eraseIdx i
                        rk := s2.rk + 20 }
    if p1.health ≤ 0 then { s3 with gameOverReq := true } else s3
  else enemyScan env s2 i e2

/-- Enemy branch of the per-entity loop: homing velocity and rotation,
rate-limited fire at the player, then collision resolution. -/
def enemyStep (env : Env) (s : SimState) (i : ℕ) (e : Entity) : SimState :=
  let e1 := homedEnemy env s.player e
  let s1 := { s with entities := s.entities.set i e1 }
  let se := enemyPostFire env s1 i e1
  enemyResolve env se.1 i se.2

/-- Scrap branch: magnet lerp 10% towards the player when the (post-move)
distance is below 150; collection (scrap stat `+= value || 1`, removal)
when that same distance is below the radius sum. -/
def scrapStep (env : Env) (s : SimState) (i : ℕ) (e : Entity) : SimState :=
  let e1 := if hypLt s.player.pos e.pos 150 then magnetLerp s.player.pos e else e
  let es1 := s.entities.set i e1
  if hypLt s.player.pos e.pos (s.player.radius + e.radius) then
    { s with scrapStat := s.scrapStat + jsOrQ e.value 1, entities := es1.eraseIdx i }
  else { s with entities := es1 }

/-- Anomaly-core branch: pulsating radius; on player contact, request the
anomaly trigger and remove the core. -/
def coreStep (env : Env) (s : SimState) (i : ℕ) (e : Entity) : SimState :=
  let e1 := { e with radius := 25 + env.sin (env.now * 0.005) * 5 }
  let es1 := s.entities.set i e1
  if hypLt s.player.pos e1.pos (s.player.radius + e1.radius) then
    { s with anomalyReq := true, entities := es1.eraseIdx i }
  else { s with entities := es1 }

/-- Health-pickup branch: pulsating radius; on player contact, heal up to
`maxHealth`, spawn 10 heal particles, remove the pickup. -/
def pickupStep (env : Env) (s : SimState) (i : ℕ) (e : Entity) : SimState :=
  let e1 := { e with radius := 15 + env.sin (env.now * 0.005) * 2 }
  let es1 := s.entities.set i e1
  if hypLt s.player.pos e1.pos (s.player.radius + e1.radius) then
    let p1 := { s.player with
                  health := min s.player.maxHealth (s.player.health + jsOrQ e1.value 20) }
    let parts := createParticles env e1.pos COLORS_HEALTH s.rk 0 10
    { s with player := p1, entities := (es1 ++ parts).eraseIdx i, rk := s.rk + 40 }
  else { s with entities := es1 }

/-- One iteration of the per-entity loop at index `i`: advance the entity
by its velocity, then dispatch on its kind.  Kinds without a branch in the
source (notably `PARTICLE`) only get the movement. -/
def stepEntity (env : Env) (s : SimState) (i : ℕ) : SimState :=
  match s.entities.get? i with
  | none => s
  | some e0 =>
    let e := moveEntity e0
    let s1 := { s with entities := s.entities.set i e }
    if e.type = EntityType.BULLET then bulletStep env s1 i e
    else if e.type = EntityType.ENEMY then enemyStep env s1 i e
    else if e.type = EntityType.SCRAP then scrapStep env s1 i e
    else if e.type = EntityType.ANOMALY_CORE then coreStep env s1 i e
    else if e.type = EntityType.HEALTH_PICKUP then pickupStep env s1 i e
    else s1

/-- The backwards entity loop: `for (let i = length - 1; i >= 0; i--)`.
`runLoop env n s` processes indices `n-1, n-2, …, 0`. -/
def runLoop (env : Env) : ℕ → SimState → SimState
  | 0, s => s
  | i + 1, s => runLoop env i (stepEntity env s i)

/-- One full simulation tick while PLAYING: player movement/aim, automatic
fire, the three spawners, then the per-entity loop over the initial
length of the (post-spawn) collection. -/
def tick (env : Env) (s : SimState) : SimState :=
  let s1 := { s with player := movePlayer env s.player }
  let s2 := shootPhase env s1
  let s3 := enemySpawnPhase env s2
  let s4 := healthSpawnPhase env s3
  let s5 := anomalyPhase env s4
  runLoop env s5.entities.length s5

/-- The simulation step `update`: a no-op unless the game state is
PLAYING. -/
def update (env : Env) (gs : GameState) (s : SimState) : SimState :=
  if gs = GameState.PLAYING then tick env s else s

/-!  The anomaly service (`src/services/geminiService.ts`) and the
application-level anomaly flow (the `App` component). -/

/-- First option of the fallback event: repair the hull (HEAL 20). -/
def fallbackHealOption : AnomalyOption :=
  { text := "Reboot Systems (Heal)"
    outcomeDescription := "You spend time fixing the hull."
    effect := AnomalyEffect.HEAL
    value := 20 }

/-- Second option of the fallback event: scavenge (SCRAP 50). -/
def fallbackScrapOption : AnomalyOption :=
  { text := "Scavenge Debris"
    outcomeDescription := "You find some loose scrap floating nearby."
    effect := AnomalyEffect.SCRAP
    value := 50 }

/-- The fixed fallback `AnomalyEvent` returned by the catch branch of
`generateAnomaly`. -/
def FALLBACK_ANOMALY : AnomalyEvent :=
  { title := "Static Interference"
    description := "The ship's sensors are picking up ghost signals, but the AI cannot decode them due to network failure."
    options := [fallbackHealOption, fallbackScrapOption] }

/-- `generateAnomaly(level, currentScrap)`.  The external model call is
represented by its outcome `svc`: `none` covers every failure mode that
lands in the catch branch or the explicit no-text throw (rejection, thrown
error, missing `response.text`, unparsable JSON); `some ev` is a
successfully parsed response.  On failure the fixed fallback event is
returned; the function itself never fails. -/
def generateAnomaly (level currentScrap : ℚ) (svc : Option AnomalyEvent) : AnomalyEvent :=
  match svc with
  | some ev => ev
  | none => FALLBACK_ANOMALY

/-- The application state around the anomaly flow (from the `App`
component): current game state, HUD stats, the pending anomaly. -/
structure AppState where
  gameState : GameState
  stats : PlayerStats
  currentAnomaly : Option AnomalyEvent := none
  loadingAnomaly : Bool := false
deriving Repr

/-- `handleTriggerAnomaly`: enter ANOMALY, call `generateAnomaly` (which
cannot throw — failures already became the fallback), store the event,
clear the loading flag. -/
def handleTriggerAnomaly (app : AppState) (svc : Option AnomalyEvent) : AppState :=
  { app with gameState := GameState.ANOMALY
             currentAnomaly := some (generateAnomaly app.stats.level app.stats.scrap svc)
             loadingAnomaly := false }

/-- `handleOptionSelect(index)`: apply the chosen option's effect to the
stats (HEAL capped at `maxHealth`, DAMAGE floored at 0, SCRAP adds
currency, WEAPON/NOTHING no-ops), resume PLAYING, clear the pending
anomaly.  The UI only invokes it with a valid index and a pending event. -/
def handleOptionSelect (app : AppState) (index : ℕ) : AppState :=
  match app.currentAnomaly with
  | none => app
  | some ev =>
    match ev.options.get? index with
    | none => app
    | some choice =>
      let st := app.stats
      let newHealth :=
        if choice.effect = AnomalyEffect.HEAL then min st.maxHealth (st.health + choice.value)
        else if choice.effect = AnomalyEffect.DAMAGE then max 0 (st.health - choice.value)
        else st.health
      let newScrap :=
        if choice.effect = AnomalyEffect.SCRAP then st.scrap + choice.value else st.scrap
      { app with stats := { st with health := newHealth, scrap := newScrap }
                 gameState := GameState.PLAYING
                 currentAnomaly := none }

/-!  Concrete fixtures used by the closed counterexample / scenario
theorems below.  `testEnv` keeps every timer satisfied away from firing
(`now = 0` with `lastShotTime = 0` suppresses player fire; `lastShot =
some 0` is falsy so enemies never fire) and fixes the abstract functions
to the constant-zero function, which no checked property depends on. -/

/-- A deterministic environment: all random draws 0, all abstract
functions constantly 0, no input held, a 2000×1000 window. -/
def testEnv : Env :=
  { now := 0
    width := 2000
    height := 1000
    rand := fun _ => 0
    sqrt := fun _ => 0
    atan2 := fun _ _ => 0
    cos := fun _ => 0
    sin := fun _ => 0
    keyW := false
    keyA := false
    keyS := false
    keyD := false
    mouse := ⟨0, 0⟩
    moveTouch := none
    aimTouch := none }

/-- The freshly initialised player of `initGame`, centred for the test
window. -/
def basePlayer : Entity :=
  { id := "player"
    type := EntityType.PLAYER
    pos := ⟨500, 500⟩
    vel := ⟨0, 0⟩
    radius := 20
    color := COLORS_PLAYER
    health := 100
    maxHealth := 100
    rotation := 0 }

/-- A fresh simulation state (no entities, all counters zero). -/
def baseState : SimState :=
  { entities := []
    player := basePlayer
    score := 0
    scrapStat := 0
    lastShotTime := 0
    enemySpawnTimer := 0
    healthSpawnTimer := 0
    lastAnomalyScore := 0
    rk := 0 }

/-- An enemy as spawned by the spawner (health parameterised, `lastShot =
some 0` so it never fires: 0 is falsy). -/
def enemyAt (pos : Vector2) (health : ℚ) : Entity :=
  { id := "enemy1"
    type := EntityType.ENEMY
    pos := pos
    vel := ⟨0, 0⟩
    radius := 15
    color := COLORS_ENEMY
    health := health
    maxHealth := 20
    rotation := 0
    value := some 10
    lastShot := some 0 }

/-- A stationary PLAYER-owned bullet. -/
def pBulletAt (id : String) (pos : Vector2) : Entity :=
  { id := id
    type := EntityType.BULLET
    pos := pos
    vel := ⟨0, 0⟩
    radius := 4
    color := COLORS_BULLET
    health := 1
    maxHealth := 1
    rotation := 0
    life := some 60
    owner := some Owner.PLAYER }

/-- A stationary ENEMY-owned bullet. -/
def eBulletAt (id : String) (pos : Vector2) : Entity :=
  { id := id
    type := EntityType.BULLET
    pos := pos
    vel := ⟨0, 0⟩
    radius := 4
    color := "#ef4444"
    health := 1
    maxHealth := 1
    rotation := 0
    life := some 80
    owner := some Owner.ENEMY }

/-- A scrap entity with the drop's fields. -/
def scrapAt (id : String) (pos : Vector2) (vel : Vector2) : Entity :=
  { id := id
    type := EntityType.SCRAP
    pos := pos
    vel := vel
    radius := 8
    color := COLORS_SCRAP
    health := 1
    maxHealth := 1
    rotation := 0
    value := some 5 }

/-- A drifting particle with the given remaining lifetime. -/
def particleWithLife (life : ℚ) : Entity :=
  { id := "particle1"
    type := EntityType.PARTICLE
    pos := ⟨300, 300⟩
    vel := ⟨1, 1⟩
    radius := 2
    color := COLORS_PLAYER
    health := 1
    maxHealth := 1
    rotation := 0
    life := some life }

/-- Number of entities of a given kind in the collection. -/
def typeCount (t : EntityType) (l : List Entity) : ℕ :=
  l.countP (fun e => decide (e.type = t))

/-- Every health pickup in the collection has a nonnegative effective heal
value (`ent.value || 20`).  The spawner only creates pickups with value
20, so this holds in every reachable state. -/
def pickupsOK (l : List Entity) : Prop :=
  ∀ e ∈ l, e.type = EntityType.HEALTH_PICKUP → 0 ≤ jsOrQ e.value 20

/-- A single entity heals nonnegatively if it is a health pickup. -/
def healOK (e : Entity) : Prop :=
  e.type = EntityType.HEALTH_PICKUP → 0 ≤ jsOrQ e.value 20

/-- The health invariant carried through a tick: the player's health never
exceeds `maxHealth`, a negative health implies the GAME_OVER transition
has been requested, and all pickups heal nonnegatively. -/
def HealthInv (s : SimState) : Prop :=
  s.player.health ≤ s.player.maxHealth ∧
    (s.player.health < 0 → s.gameOverReq = true) ∧ pickupsOK s.entities

/-!  Concrete states for the closed counterexample / scenario theorems. -/

/-- C1 fixture: player at health 5 with one enemy in contact. -/
def c1state : SimState :=
  { baseState with player := { basePlayer with health := 5 }
                   entities := [enemyAt ⟨520, 500⟩ 20] }

/-- C2 fixture: a player bullet (index 0) overlapping a one-hit enemy
(index 1), and an unrelated far-away scrap named "marker" (index 2). -/
def c2state : SimState :=
  { baseState with entities := [pBulletAt "pb1" ⟨100, 100⟩, enemyAt ⟨110, 100⟩ 10,
                                scrapAt "marker" ⟨900, 900⟩ ⟨0, 0⟩] }

/-- C3 fixture: a single particle whose remaining lifetime is 1 frame. -/
def c3state : SimState := { baseState with entities := [particleWithLife 1] }

/-- C7 fixture: the player drifts away at speed 12 from a scrap 145 units
to its west. -/
def c7state : SimState :=
  { baseState with player := { basePlayer with vel := ⟨12, 0⟩ }
                   entities := [scrapAt "sc1" ⟨355, 500⟩ ⟨0, 0⟩] }

/-- C8 fixture: an enemy bullet 10 units from the player and an enemy 20
units from the player; the backwards loop resolves the enemy collision
first, then the bullet hit. -/
def c8state : SimState :=
  { baseState with entities := [eBulletAt "eb1" ⟨510, 500⟩, enemyAt ⟨520, 500⟩ 20] }

/-- C9 fixture: two player bullets (indices 0 and 1) both overlapping a
full-health enemy (index 2). -/
def c9state : SimState :=
  { baseState with entities := [pBulletAt "pb1" ⟨100, 100⟩, pBulletAt "pb2" ⟨105, 100⟩,
                                enemyAt ⟨110, 100⟩ 20] }

/-- C10 witness fixture: a single enemy in contact with the player. -/
def c10state : SimState := { baseState with entities := [enemyAt ⟨520, 500⟩ 20] }

/-- C7 witness fixture (collection): a scrap 10 units from the player. -/
def c7colState : SimState :=
  { baseState with entities := [scrapAt "w1" ⟨510, 500⟩ ⟨0, 0⟩] }

/-- C7 witness fixture (magnet): a scrap 100 units from the player. -/
def c7magState : SimState :=
  { baseState with entities := [scrapAt "w2" ⟨400, 500⟩ ⟨0, 0⟩] }

/-- C4 witness fixture: fresh run whose score has just reached 500. -/
def c4state : SimState := { baseState with score := 500 }

/-- C6 witness fixture: the spawn counter one tick from firing. -/
def c6state : SimState := { baseState with enemySpawnTimer := 60 }

/-!  Theorems. -/

/-- C5: whenever the narrative-generation call throws, rejects or returns
no text (`svc = none`), `generateAnomaly` returns the fixed fallback event
with title "Static Interference" and exactly the two options HEAL 20 and
SCRAP 50; triggering the anomaly enters ANOMALY and selecting an option of
the fallback returns the game to PLAYING. -/
theorem generateAnomaly_failure_falls_back (level currentScrap : ℚ) (app : AppState) :
    generateAnomaly level currentScrap none = FALLBACK_ANOMALY ∧
    FALLBACK_ANOMALY.title = "Static Interference" ∧
    FALLBACK_ANOMALY.options.map (fun o => (o.effect, o.value)) =
      [(AnomalyEffect.HEAL, 20), (AnomalyEffect.SCRAP, 50)] ∧
    (handleTriggerAnomaly app none).gameState = GameState.ANOMALY ∧
    (handleOptionSelect (handleTriggerAnomaly app none) 0).gameState = GameState.PLAYING :=
  ⟨rfl, rfl, rfl, rfl, rfl⟩

/-- C4: the anomaly spawner is watermark-gated: when the score has
advanced 500 past the watermark, exactly one ANOMALY_CORE is appended and
the watermark moves to the current score immediately; whenever the score
is less than 500 past the watermark the phase does nothing at all, so in
particular no second core can spawn until the score passes the new
watermark by another 500. -/
theorem anomaly_threshold_watermark (env : Env) (s : SimState) :
    (500 ≤ s.score - s.lastAnomalyScore →
      typeCount EntityType.ANOMALY_CORE (anomalyPhase env s).entities =
        typeCount EntityType.ANOMALY_CORE s.entities + 1 ∧
      (anomalyPhase env s).lastAnomalyScore = s.score ∧
      (anomalyPhase env s).score = s.score) ∧
    (s.score - s.lastAnomalyScore < 500 → anomalyPhase env s = s) := by
  constructor
  · intro h
    unfold anomalyPhase
    rw [if_pos h]
    refine ⟨?_, rfl, rfl⟩
    show typeCount EntityType.ANOMALY_CORE (s.entities ++ [_]) = _
    simp [typeCount, List.countP_append, List.countP_cons]
  · intro h
    unfold anomalyPhase
    rw [if_neg (by linarith : ¬ (500 ≤ s.score - s.lastAnomalyScore))]

/-- A tick of the enemy spawner below the threshold only advances the
counter. -/
theorem enemySpawnPhase_skip (env : Env) (s : SimState) (h : s.enemySpawnTimer + 1 ≤ 60) :
    enemySpawnPhase env s = { s with enemySpawnTimer := s.enemySpawnTimer + 1 } := by
  simp only [enemySpawnPhase]
  rw [if_neg (by omega)]

/-- Iterating the enemy spawner while the counter stays at or below 60
spawns nothing and adds the iteration count to the counter. -/
theorem enemySpawnPhase_iterate (env : Env) (k : ℕ) :
    ∀ s : SimState, s.enemySpawnTimer + k ≤ 60 →
      (enemySpawnPhase env)^[k] s = { s with enemySpawnTimer := s.enemySpawnTimer + k } := by
  induction k with
  | zero => intro s _; rfl
  | succ n ih =>
    intro s h
    rw [Function.iterate_succ_apply, enemySpawnPhase_skip env s (by omega)]
    rw [ih { s with enemySpawnTimer := s.enemySpawnTimer + 1 }
        (show s.enemySpawnTimer + 1 + n ≤ 60 by omega)]
    show ({ s with enemySpawnTimer := s.enemySpawnTimer + 1 + n } : SimState) = _
    rw [show s.enemySpawnTimer + 1 + n = s.enemySpawnTimer + (n + 1) by omega]

/-- C6 (amended): the spawn counter must strictly exceed 60 after its
increment, so one ENEMY is spawned every 61 consecutive PLAYING ticks
(not 60): 61 iterations from a zero counter add exactly one enemy.  The
spawned enemy has health 20/20, value 10, radius 15, a stagger
`now + u·1000` on its fire timer, and sits on the edge selected by
`⌊4u⌋` (top/right/bottom/left), 30 units outside the bound, with the
coordinate along the edge chosen by the next draw. -/
theorem enemy_spawn_period_61 (env : Env) (s : SimState) :
    (60 < s.enemySpawnTimer + 1 →
      (enemySpawnPhase env s).entities = s.entities ++ [spawnedEnemy env s.rk] ∧
      (enemySpawnPhase env s).enemySpawnTimer = 0) ∧
    (s.enemySpawnTimer + 1 ≤ 60 →
      (enemySpawnPhase env s).entities = s.entities ∧
      (enemySpawnPhase env s).enemySpawnTimer = s.enemySpawnTimer + 1) ∧
    (s.enemySpawnTimer = 0 →
      typeCount EntityType.ENEMY (((enemySpawnPhase env)^[61]) s).entities =
        typeCount EntityType.ENEMY s.entities + 1) ∧
    (∀ k, (spawnedEnemy env k).type = EntityType.ENEMY ∧
      (spawnedEnemy env k).health = 20 ∧ (spawnedEnemy env k).maxHealth = 20 ∧
      (spawnedEnemy env k).value = some 10 ∧ (spawnedEnemy env k).radius = 15 ∧
      (spawnedEnemy env k).lastShot = some (env.now + env.rand (k + 3) * 1000) ∧
      (Rat.floor (env.rand k * 4) = 0 →
        (spawnedEnemy env k).pos = ⟨env.rand (k + 1) * env.width, -30⟩) ∧
      (Rat.floor (env.rand k * 4) = 1 →
        (spawnedEnemy env k).pos = ⟨env.width + 30, env.rand (k + 1) * env.height⟩) ∧
      (Rat.floor (env.rand k * 4) = 2 →
        (spawnedEnemy env k).pos = ⟨env.rand (k + 1) * env.width, env.height + 30⟩) ∧
      (Rat.floor (env.rand k * 4) ≠ 0 → Rat.floor (env.rand k * 4) ≠ 1 →
       Rat.floor (env.rand k * 4) ≠ 2 →
        (spawnedEnemy env k).pos = ⟨-30, env.rand (k + 1) * env.height⟩)) := by
  refine ⟨?_, ?_, ?_, ?_⟩
  · intro h
    unfold enemySpawnPhase
    rw [if_pos h]
    exact ⟨rfl, rfl⟩
  · intro h
    rw [enemySpawnPhase_skip env s h]
    exact ⟨rfl, rfl⟩
  · intro h
    rw [show (61 : ℕ) = 60 + 1 from rfl, Function.iterate_succ_apply',
        enemySpawnPhase_iterate env 60 s (by omega)]
    unfold enemySpawnPhase
    rw [if_pos (show 60 < ({ s with enemySpawnTimer := s.enemySpawnTimer + 60 } : SimState).enemySpawnTimer + 1 by
          show 60 < s.enemySpawnTimer + 60 + 1; omega)]
    show typeCount EntityType.ENEMY (s.entities ++ [_]) = _
    simp [typeCount, List.countP_append, List.countP_cons, spawnedEnemy]
  · intro k
    refine ⟨rfl, rfl, rfl, rfl, rfl, rfl, ?_, ?_, ?_, ?_⟩
    all_goals
      intros
      simp_all [spawnedEnemy]

/-- Movement does not change an entity's kind. -/
theorem moveEntity_type (e : Entity) : (moveEntity e).type = e.type := rfl

/-- Squared distances are nonnegative. -/
theorem dist2_nonneg (a b : Vector2) : 0 ≤ dist2 a b :=
  add_nonneg (mul_self_nonneg _) (mul_self_nonneg _)

/-- `typeCount` distributes over append. -/
theorem typeCount_append (t : EntityType) (l1 l2 : List Entity) :
    typeCount t (l1 ++ l2) = typeCount t l1 + typeCount t l2 :=
  List.countP_append _ _ _

/-- Replacing an element by one of the same kind preserves kind counts. -/
theorem typeCount_set (t : EntityType) (l : List Entity) (i : ℕ) (a b : Entity)
    (hget : l.get? i = some b) (h : a.type = b.type) :
    typeCount t (l.set i a) = typeCount t l := by
  induction l generalizing i with
  | nil => simp at hget
  | cons c tl ih =>
    cases i with
    | zero =>
      simp only [List.get?] at hget
      injection hget with hget
      subst hget
      simp [typeCount, List.countP_cons, h]
    | succ n =>
      simp only [List.get?] at hget
      show typeCount t (c :: tl.set n a) = typeCount t (c :: tl)
      simp only [typeCount, List.countP_cons]
      have hh := ih n hget
      simp only [typeCount] at hh
      rw [hh]

/-- Removing an element of another kind preserves the count of kind `t`. -/
theorem typeCount_eraseIdx_ne (t : EntityType) (l : List Entity) (i : ℕ) (b : Entity)
    (hget : l.get? i = some b) (h : ¬ b.type = t) :
    typeCount t (l.eraseIdx i) = typeCount t l := by
  induction l generalizing i with
  | nil => simp at hget
  | cons c tl ih =>
    cases i with
    | zero =>
      simp only [List.get?] at hget
      injection hget with hget
      subst hget
      show typeCount t tl = typeCount t (c :: tl)
      simp [typeCount, List.countP_cons, h]
    | succ n =>
      simp only [List.get?] at hget
      show typeCount t (c :: tl.eraseIdx n) = typeCount t (c :: tl)
      simp only [typeCount, List.countP_cons]
      have hh := ih n hget
      simp only [typeCount] at hh
      rw [hh]

/-- Particle bursts contain no entity of any other kind. -/
theorem typeCount_particles (t : EntityType) (h : ¬ t = EntityType.PARTICLE)
    (env : Env) (pos : Vector2) (color : String) :
    ∀ (n k idx : ℕ), typeCount t (createParticles env pos color k idx n) = 0 := by
  intro n
  induction n with
  | zero => intro k idx; rfl
  | succ m ih =>
    intro k idx
    show typeCount t (particleAt env pos color k idx ::
      createParticles env pos color (k + 4) (idx + 1) m) = 0
    simp only [typeCount, List.countP_cons]
    have h1 : decide ((particleAt env pos color k idx).type = t) = false :=
      decide_eq_false (fun hh => h hh.symm)
    rw [h1]
    have hh := ih (k + 4) (idx + 1)
    simp only [typeCount] at hh
    rw [hh]
    rfl

/-- What `findHit` returns satisfies the scan predicate. -/
theorem findHit_hits (es : List Entity) (e : Entity) (j0 j : ℕ)
    (h : findHit es e j0 = some j) : bulletHits es e j = true := by
  induction j0 with
  | zero =>
    unfold findHit at h
    split at h
    · injection h with h; subst h; assumption
    · exact absurd h (by simp)
  | succ n ih =>
    unfold findHit at h
    split at h
    · injection h with h; subst h; assumption
    · exact ih h

/-- A scan hit is a PLAYER-owned bullet present at that index. -/
theorem bulletHits_spec (es : List Entity) (e : Entity) (j : ℕ)
    (h : bulletHits es e j = true) :
    ∃ b, es.get? j = some b ∧ b.type = EntityType.BULLET ∧ b.owner = some Owner.PLAYER := by
  unfold bulletHits at h
  cases hg : es.get? j with
  | none => rw [hg] at h; simp at h
  | some b =>
    rw [hg] at h
    simp only [Bool.and_eq_true, decide_eq_true_eq] at h
    exact ⟨b, rfl, h.1.1, h.1.2⟩

/-- A particle burst has exactly `count` particles. -/
theorem length_createParticles (env : Env) (pos : Vector2) (color : String) :
    ∀ (n k idx : ℕ), (createParticles env pos color k idx n).length = n := by
  intro n
  induction n with
  | zero => intro k idx; rfl
  | succ m ih =>
    intro k idx
    show (particleAt env pos color k idx ::
      createParticles env pos color (k + 4) (idx + 1) m).length = m + 1
    simp [ih (k + 4) (idx + 1)]

/-- The per-entity loop on an ENEMY index is movement followed by the
enemy branch. -/
theorem stepEntity_enemy (env : Env) (s : SimState) (i : ℕ) (e : Entity)
    (hget : s.entities.get? i = some e) (hty : e.type = EntityType.ENEMY) :
    stepEntity env s i =
      enemyStep env { s with entities := s.entities.set i (moveEntity e) } i (moveEntity e) := by
  unfold stepEntity
  rw [hget]
  simp only [moveEntity_type, hty]
  rfl

/-- The fire phase does not move the enemy, change its collision data,
or touch the player, score or scrap stat. -/
theorem enemyPostFire_proj (env : Env) (s1 : SimState) (i : ℕ) (e1 : Entity) :
    (enemyPostFire env s1 i e1).1.player = s1.player ∧
    (enemyPostFire env s1 i e1).1.score = s1.score ∧
    (enemyPostFire env s1 i e1).1.scrapStat = s1.scrapStat ∧
    (enemyPostFire env s1 i e1).2.pos = e1.pos ∧
    (enemyPostFire env s1 i e1).2.radius = e1.radius ∧
    (enemyPostFire env s1 i e1).2.value = e1.value ∧
    (enemyPostFire env s1 i e1).2.type = e1.type := by
  unfold enemyPostFire
  split <;> exact ⟨rfl, rfl, rfl, rfl, rfl, rfl, rfl⟩

/-- After the fire phase the (possibly restamped) enemy is still at its
index. -/
theorem enemyPostFire_get (env : Env) (s1 : SimState) (i : ℕ) (e1 : Entity)
    (hget1 : s1.entities.get? i = some e1) :
    (enemyPostFire env s1 i e1).1.entities.get? i = some (enemyPostFire env s1 i e1).2 := by
  have hi : i < s1.entities.length := (List.get?_eq_some.mp hget1).1
  unfold enemyPostFire
  split
  · show ((s1.entities.set i _) ++ [_]).get? i = _
    rw [List.get?_eq_getElem?, List.getElem?_append_left (by simpa using hi),
      List.getElem?_set_self (by simpa using hi)]
  · exact hget1

/-- The fire phase adds no scrap (it only restamps the enemy and pushes a
bullet). -/
theorem enemyPostFire_scrapCount (env : Env) (s1 : SimState) (i : ℕ) (e1 : Entity)
    (hget1 : s1.entities.get? i = some e1) :
    typeCount EntityType.SCRAP (enemyPostFire env s1 i e1).1.entities =
      typeCount EntityType.SCRAP s1.entities := by
  unfold enemyPostFire
  split
  · show typeCount _ ((s1.entities.set i _) ++ [enemyBullet env _ s1.rk]) = _
    rw [typeCount_append,
      typeCount_set EntityType.SCRAP s1.entities i { e1 with lastShot := some env.now } e1 hget1 rfl]
    simp [typeCount, List.countP_cons, enemyBullet]
  · rfl

/-- Frame effects of enemy resolution: a body collision with the player
leaves the score, the scrap entity count and the scrap stat unchanged;
conversely the score changes only in the bullet-kill branch, which adds
`value || 10` and appends one scrap drop (value 5) as the last entity. -/
theorem enemyResolve_facts (env : Env) (q : SimState) (i : ℕ) (en : Entity)
    (hgetq : q.entities.get? i = some en) (htyen : en.type = EntityType.ENEMY) :
    (hypLt q.player.pos en.pos (q.player.radius + en.radius) = true →
      (enemyResolve env q i en).score = q.score ∧
      typeCount EntityType.SCRAP (enemyResolve env q i en).entities =
        typeCount EntityType.SCRAP q.entities ∧
      (enemyResolve env q i en).scrapStat = q.scrapStat) ∧
    ((enemyResolve env q i en).score ≠ q.score →
      hypLt q.player.pos en.pos (q.player.radius + en.radius) = false ∧
      (enemyResolve env q i en).score = q.score + jsOrQ en.value 10 ∧
      ∃ d, (enemyResolve env q i en).entities.getLast? = some d ∧
        d.type = EntityType.SCRAP ∧ d.value = some 5) := by
  have hilt : i < q.entities.length := (List.get?_eq_some.mp hgetq).1
  unfold enemyResolve
  by_cases hc : hypLt q.player.pos en.pos (q.player.radius + en.radius) = true
  · rw [if_pos hc]
    constructor
    · intro _
      refine ⟨?_, ?_, ?_⟩
      · dsimp only
        split <;> rfl
      · have hgetap : (q.entities ++
            createParticles env en.pos COLORS_PLAYER q.rk 0 5).get? i = some en := by
          rw [List.get?_eq_getElem?, List.getElem?_append_left (by simpa using hilt),
            ← List.get?_eq_getElem?]
          exact hgetq
        have hstep : typeCount EntityType.SCRAP
            ((q.entities ++ createParticles env en.pos COLORS_PLAYER q.rk 0 5).eraseIdx i) =
            typeCount EntityType.SCRAP q.entities := by
          rw [typeCount_eraseIdx_ne _ _ i en hgetap (by simp [htyen]), typeCount_append,
            typeCount_particles _ (by simp) env en.pos COLORS_PLAYER 5 q.rk 0]
          rfl
        dsimp only
        split <;> exact hstep
      · dsimp only
        split <;> rfl
    · intro hns
      exfalso
      apply hns
      dsimp only
      split <;> rfl
  · rw [if_neg hc]
    have hcf : hypLt q.player.pos en.pos (q.player.radius + en.radius) = false :=
      Bool.eq_false_iff.mpr hc
    constructor
    · intro hcol
      rw [hcol] at hcf
      exact absurd hcf (by simp)
    · intro hns
      refine ⟨hcf, ?_⟩
      unfold enemyScan at hns ⊢
      cases hfh : findHit q.entities en (q.entities.length - 1) with
      | none =>
        rw [hfh] at hns
        exact absurd rfl hns
      | some j =>
        simp only [hfh] at hns ⊢
        have hjlt : j < q.entities.length := by
          obtain ⟨b, hbg, -, -⟩ := bulletHits_spec _ _ _ (findHit_hits _ _ _ _ hfh)
          exact (List.get?_eq_some.mp hbg).1
        by_cases hkill : en.health - 10 ≤ 0
        · rw [if_pos hkill] at hns ⊢
          have hlen : i < ((q.entities.set i { en with health := en.health - 10 }).eraseIdx j ++
              createParticles env en.pos COLORS_ENEMY q.rk 0 8).length := by
            rw [List.length_append, List.length_eraseIdx]
            simp only [List.length_set]
            rw [if_pos hjlt, length_createParticles]
            omega
          refine ⟨rfl, ?_⟩
          rw [List.eraseIdx_append_of_lt_length hlen, List.getLast?_concat]
          exact ⟨_, rfl, rfl, rfl⟩
        · rw [if_neg hkill] at hns
          exact absurd rfl hns

/-- C10: when an ENEMY at index `i` is removed because it collided with
the player, the authoritative score is unchanged, no SCRAP entity is
spawned and the scrap stat is untouched; the score changes only when a
PLAYER-owned bullet reduced the enemy health to ≤ 0, in which case it
grows by the enemy value (`value || 10`) and exactly one SCRAP drop of
value 5 is appended. -/
theorem enemy_removal_frame_effects (env : Env) (s : SimState) (i : ℕ) (e : Entity)
    (hget : s.entities.get? i = some e) (hty : e.type = EntityType.ENEMY) :
    (hypLt s.player.pos (moveEntity e).pos (s.player.radius + e.radius) = true →
      (stepEntity env s i).score = s.score ∧
      typeCount EntityType.SCRAP (stepEntity env s i).entities =
        typeCount EntityType.SCRAP s.entities ∧
      (stepEntity env s i).scrapStat = s.scrapStat) ∧
    ((stepEntity env s i).score ≠ s.score →
      hypLt s.player.pos (moveEntity e).pos (s.player.radius + e.radius) = false ∧
      (stepEntity env s i).score = s.score + jsOrQ e.value 10 ∧
      ∃ d, (stepEntity env s i).entities.getLast? = some d ∧
        d.type = EntityType.SCRAP ∧ d.value = some 5) := by
  have hi : i < s.entities.length := (List.get?_eq_some.mp hget).1
  rw [stepEntity_enemy env s i e hget hty]
  simp only [enemyStep]
  set E1 := homedEnemy env s.player (moveEntity e) with hE1
  set S1 : SimState :=
    { entities := (s.entities.set i (moveEntity e)).set i E1, player := s.player,
      score := s.score, scrapStat := s.scrapStat, lastShotTime := s.lastShotTime,
      enemySpawnTimer := s.enemySpawnTimer, healthSpawnTimer := s.healthSpawnTimer,
      lastAnomalyScore := s.lastAnomalyScore, rk := s.rk, gameOverReq := s.gameOverReq,
      anomalyReq := s.anomalyReq } with hS1
  have hget1 : S1.entities.get? i = some E1 := by
    show ((s.entities.set i (moveEntity e)).set i E1).get? i = some E1
    rw [List.get?_eq_getElem?, List.getElem?_set_self (by simpa using hi)]
  obtain ⟨hpl, hsc, hss, hpos, hrad, hval, hte⟩ := enemyPostFire_proj env S1 i E1
  have hq := enemyResolve_facts env (enemyPostFire env S1 i E1).1 i
    (enemyPostFire env S1 i E1).2 (enemyPostFire_get env S1 i E1 hget1)
    (by rw [hte]; exact hty)
  have hceq : hypLt (enemyPostFire env S1 i E1).1.player.pos (enemyPostFire env S1 i E1).2.pos
      ((enemyPostFire env S1 i E1).1.player.radius + (enemyPostFire env S1 i E1).2.radius) =
      hypLt s.player.pos (moveEntity e).pos (s.player.radius + e.radius) := by
    rw [hpl, hpos, hrad]
    exact rfl
  have hsceq : (enemyPostFire env S1 i E1).1.score = s.score := hsc
  have hsseq : (enemyPostFire env S1 i E1).1.scrapStat = s.scrapStat := hss
  have hvaleq : (enemyPostFire env S1 i E1).2.value = e.value := hval
  have htc : typeCount EntityType.SCRAP (enemyPostFire env S1 i E1).1.entities =
      typeCount EntityType.SCRAP s.entities := by
    rw [enemyPostFire_scrapCount env S1 i E1 hget1]
    show typeCount _ ((s.entities.set i (moveEntity e)).set i E1) = _
    rw [typeCount_set EntityType.SCRAP (s.entities.set i (moveEntity e)) i E1 (moveEntity e)
        (by rw [List.get?_eq_getElem?, List.getElem?_set_self (by simpa using hi)]) rfl,
      typeCount_set EntityType.SCRAP s.entities i (moveEntity e) e hget rfl]
  constructor
  · intro hcol
    have h1 := hq.1 (by rw [hceq]; exact hcol)
    exact ⟨h1.1.trans hsceq, h1.2.1.trans htc, h1.2.2.trans hsseq⟩
  · intro hns
    have hns2 : (enemyResolve env (enemyPostFire env S1 i E1).1 i
        (enemyPostFire env S1 i E1).2).score ≠ (enemyPostFire env S1 i E1).1.score := by
      rw [hsceq]
      exact hns
    obtain ⟨hb1, hb2, hb3⟩ := hq.2 hns2
    refine ⟨?_, ?_, hb3⟩
    · rw [← hceq]
      exact hb1
    · rw [hb2, hsceq, hvaleq]

/-- The per-entity loop on a SCRAP index is movement followed by the
scrap branch. -/
theorem stepEntity_scrap (env : Env) (s : SimState) (i : ℕ) (e : Entity)
    (hget : s.entities.get? i = some e) (hty : e.type = EntityType.SCRAP) :
    stepEntity env s i =
      scrapStep env { s with entities := s.entities.set i (moveEntity e) } i (moveEntity e) := by
  unfold stepEntity
  rw [hget]
  simp only [moveEntity_type, hty]
  rfl

/-- Normal form of the scrap branch: the magnet lerp applies when the
post-movement distance is inside 150, collection when it is inside the
radius sum (both tests use the same pre-lerp distance, as the source
computes `dist` once). -/
theorem scrapStep_eq (env : Env) (s : SimState) (i : ℕ) (e : Entity) :
    scrapStep env s i e =
      if hypLt s.player.pos e.pos (s.player.radius + e.radius) then
        { s with scrapStat := s.scrapStat + jsOrQ e.value 1,
                 entities := (s.entities.set i (if hypLt s.player.pos e.pos 150 then
                     magnetLerp s.player.pos e else e)).eraseIdx i }
      else { s with entities := s.entities.set i (if hypLt s.player.pos e.pos 150 then
                     magnetLerp s.player.pos e else e) } := by
  unfold scrapStep
  by_cases h : hypLt s.player.pos e.pos (s.player.radius + e.radius) = true <;>
    by_cases h2 : hypLt s.player.pos e.pos 150 = true <;>
    simp [h, h2]

/-- C7 (amended): for a SCRAP entity at index `i`, with distances taken
after the tick's movement integration: if the post-movement distance is
within collection range the scrap is removed and the scrap stat grows by
`value || 1`; otherwise, if it is within the 150-unit magnet range, the
scrap is lerped 10% towards the player, which scales its squared distance
by exactly 81/100 and hence strictly decreases it whenever it is
nonzero. -/
theorem scrap_magnet_toward_player (env : Env) (s : SimState) (i : ℕ) (e : Entity)
    (hget : s.entities.get? i = some e) (hty : e.type = EntityType.SCRAP) :
    (hypLt s.player.pos (moveEntity e).pos (s.player.radius + e.radius) = true →
      (stepEntity env s i).scrapStat = s.scrapStat + jsOrQ e.value 1 ∧
      (stepEntity env s i).entities.length + 1 = s.entities.length) ∧
    (hypLt s.player.pos (moveEntity e).pos (s.player.radius + e.radius) = false →
      hypLt s.player.pos (moveEntity e).pos 150 = true →
      (stepEntity env s i).entities.get? i =
        some (magnetLerp s.player.pos (moveEntity e)) ∧
      dist2 s.player.pos (magnetLerp s.player.pos (moveEntity e)).pos =
        81/100 * dist2 s.player.pos (moveEntity e).pos ∧
      (dist2 s.player.pos (moveEntity e).pos ≠ 0 →
        dist2 s.player.pos (magnetLerp s.player.pos (moveEntity e)).pos <
          dist2 s.player.pos (moveEntity e).pos)) := by
  have hi : i < s.entities.length := (List.get?_eq_some.mp hget).1
  have hL : dist2 s.player.pos (magnetLerp s.player.pos (moveEntity e)).pos =
      81/100 * dist2 s.player.pos (moveEntity e).pos := by
    simp only [dist2, magnetLerp, moveEntity]
    ring_nf
  rw [stepEntity_scrap env s i e hget hty, scrapStep_eq]
  constructor
  · intro hcol
    have hc : hypLt ({ s with entities := s.entities.set i (moveEntity e) } : SimState).player.pos
        (moveEntity e).pos
        (({ s with entities := s.entities.set i (moveEntity e) } : SimState).player.radius +
          (moveEntity e).radius) = true := hcol
    rw [if_pos hc]
    refine ⟨rfl, ?_⟩
    show ((_ : List Entity).eraseIdx i).length + 1 = s.entities.length
    rw [List.length_eraseIdx]
    simp only [List.length_set]
    rw [if_pos hi]
    omega
  · intro hcol h150
    have hc : ¬ (hypLt ({ s with entities := s.entities.set i (moveEntity e) } : SimState).player.pos
        (moveEntity e).pos
        (({ s with entities := s.entities.set i (moveEntity e) } : SimState).player.radius +
          (moveEntity e).radius) = true) := by
      rw [show hypLt ({ s with entities := s.entities.set i (moveEntity e) } : SimState).player.pos
          (moveEntity e).pos
          (({ s with entities := s.entities.set i (moveEntity e) } : SimState).player.radius +
            (moveEntity e).radius) = false from hcol]
      exact Bool.false_ne_true
    rw [if_neg hc]
    have h150c : hypLt ({ s with entities := s.entities.set i (moveEntity e) } : SimState).player.pos
        (moveEntity e).pos 150 = true := h150
    rw [if_pos h150c]
    refine ⟨?_, hL, ?_⟩
    · show ((s.entities.set i (moveEntity e)).set i (magnetLerp s.player.pos (moveEntity e))).get? i =
        some (magnetLerp s.player.pos (moveEntity e))
      rw [List.get?_eq_getElem?, List.getElem?_set_self (by simpa using hi)]
    · intro hne
      have hnn := dist2_nonneg s.player.pos (moveEntity e).pos
      have hpos : 0 < dist2 s.player.pos (moveEntity e).pos := lt_of_le_of_ne hnn (Ne.symm hne)
      rw [hL]
      linarith

/-- `healOK` only depends on the kind and value fields. -/
theorem healOK_congr {a e : Entity} (he : healOK e) (ht : a.type = e.type)
    (hv : a.value = e.value) : healOK a := by
  intro h0
  rw [hv]
  exact he (ht ▸ h0)

/-- `pickupsOK` is preserved by append. -/
theorem pickupsOK_append {l1 l2 : List Entity} (h1 : pickupsOK l1) (h2 : pickupsOK l2) :
    pickupsOK (l1 ++ l2) := by
  intro x hx ht
  rcases List.mem_append.mp hx with hm | hm
  · exact h1 x hm ht
  · exact h2 x hm ht

/-- `pickupsOK` is preserved by replacing an element with a `healOK` one. -/
theorem pickupsOK_set {l : List Entity} {i : ℕ} {a : Entity} (h : pickupsOK l)
    (ha : healOK a) : pickupsOK (l.set i a) := by
  intro x hx ht
  rcases List.mem_or_eq_of_mem_set hx with hm | rfl
  · exact h x hm ht
  · exact ha ht

/-- `pickupsOK` is preserved by removal. -/
theorem pickupsOK_eraseIdx {l : List Entity} {i : ℕ} (h : pickupsOK l) :
    pickupsOK (l.eraseIdx i) := fun x hx ht => h x (List.mem_of_mem_eraseIdx hx) ht

/-- Particle bursts contain no pickups. -/
theorem pickupsOK_particles (env : Env) (pos : Vector2) (color : String) :
    ∀ (n k idx : ℕ), pickupsOK (createParticles env pos color k idx n) := by
  intro n
  induction n with
  | zero => intro k idx x hx ht; simp [createParticles] at hx
  | succ m ih =>
    intro k idx x hx ht
    rcases List.mem_cons.mp hx with rfl | hm
    · exact absurd ht (by simp [particleAt])
    · exact ih (k + 4) (idx + 1) x hm ht

/-- A single `healOK` entity is a `pickupsOK` collection. -/
theorem pickupsOK_singleton {e : Entity} (ha : healOK e) : pickupsOK [e] := by
  intro x hx ht
  rcases List.mem_singleton.mp hx with rfl
  exact ha ht

/-- The bullet branch preserves the health invariant: expiry removes the
bullet, an enemy-bullet hit subtracts 5 and requests GAME_OVER when the
result is ≤ 0. -/
theorem bulletStep_inv (env : Env) (s : SimState) (i : ℕ) (e : Entity)
    (h : HealthInv s) (he : healOK e) : HealthInv (bulletStep env s i e) := by
  obtain ⟨h1, h2, h3⟩ := h
  have he1 : healOK { e with life := decLife e.life } := healOK_congr he rfl rfl
  unfold bulletStep
  dsimp only
  split
  · exact ⟨h1, h2, pickupsOK_eraseIdx (pickupsOK_set h3 he1)⟩
  · split
    · split
      · refine ⟨by dsimp only; linarith, fun _ => rfl, ?_⟩
        exact pickupsOK_eraseIdx (pickupsOK_append (pickupsOK_set h3 he1)
          (pickupsOK_particles env _ _ 3 s.rk 0))
      · rename_i hng
        refine ⟨by dsimp only; linarith, ?_, ?_⟩
        · intro hlt
          dsimp only at hlt hng
          linarith
        · exact pickupsOK_eraseIdx (pickupsOK_append (pickupsOK_set h3 he1)
            (pickupsOK_particles env _ _ 3 s.rk 0))
    · exact ⟨h1, h2, pickupsOK_set h3 he1⟩

/-- The bullet scan preserves the health invariant (it never touches the
player). -/
theorem enemyScan_inv (env : Env) (s : SimState) (i : ℕ) (e : Entity)
    (h : HealthInv s) (he : healOK e) : HealthInv (enemyScan env s i e) := by
  obtain ⟨h1, h2, h3⟩ := h
  have he1 : healOK { e with health := e.health - 10 } := healOK_congr he rfl rfl
  have hdrop : healOK (scrapDropOf env e.pos (s.rk + 32)) := by
    intro ht
    exact absurd ht (by simp [scrapDropOf])
  unfold enemyScan
  split
  · exact ⟨h1, h2, h3⟩
  · dsimp only
    split
    · refine ⟨h1, h2, ?_⟩
      exact pickupsOK_eraseIdx (pickupsOK_append (pickupsOK_append
        (pickupsOK_eraseIdx (pickupsOK_set h3 he1))
        (pickupsOK_particles env _ _ 8 s.rk 0)) (pickupsOK_singleton hdrop))
    · exact ⟨h1, h2, pickupsOK_eraseIdx (pickupsOK_set h3 he1)⟩

/-- The enemy fire phase preserves the health invariant and the fired
enemy stays `healOK`. -/
theorem enemyPostFire_inv (env : Env) (s1 : SimState) (i : ℕ) (e1 : Entity)
    (h : HealthInv s1) (he1 : healOK e1) :
    HealthInv (enemyPostFire env s1 i e1).1 ∧ healOK (enemyPostFire env s1 i e1).2 := by
  obtain ⟨h1, h2, h3⟩ := h
  have he2 : healOK { e1 with lastShot := some env.now } := healOK_congr he1 rfl rfl
  have hbul : healOK (enemyBullet env { e1 with lastShot := some env.now } s1.rk) := by
    intro ht
    exact absurd ht (by simp [enemyBullet])
  unfold enemyPostFire
  split
  · exact ⟨⟨h1, h2, pickupsOK_append (pickupsOK_set h3 he2) (pickupsOK_singleton hbul)⟩, he2⟩
  · exact ⟨⟨h1, h2, h3⟩, he1⟩

/-- Enemy resolution preserves the health invariant: a body collision
subtracts 10 and requests GAME_OVER when the result is ≤ 0. -/
theorem enemyResolve_inv (env : Env) (s : SimState) (i : ℕ) (e : Entity)
    (h : HealthInv s) (he : healOK e) : HealthInv (enemyResolve env s i e) := by
  obtain ⟨h1, h2, h3⟩ := h
  unfold enemyResolve
  split
  · dsimp only
    split
    · refine ⟨by dsimp only; linarith, fun _ => rfl, ?_⟩
      exact pickupsOK_eraseIdx (pickupsOK_append h3 (pickupsOK_particles env _ _ 5 s.rk 0))
    · rename_i hng
      refine ⟨by dsimp only; linarith, ?_, ?_⟩
      · intro hlt
        dsimp only at hlt hng
        linarith
      · exact pickupsOK_eraseIdx (pickupsOK_append h3 (pickupsOK_particles env _ _ 5 s.rk 0))
  · exact enemyScan_inv env s i e ⟨h1, h2, h3⟩ he

/-- The enemy branch preserves the health invariant. -/
theorem enemyStep_inv (env : Env) (s : SimState) (i : ℕ) (e : Entity)
    (h : HealthInv s) (he : healOK e) : HealthInv (enemyStep env s i e) := by
  have he1 : healOK (homedEnemy env s.player e) := healOK_congr he rfl rfl
  have h1 : HealthInv { s with entities := s.entities.set i (homedEnemy env s.player e) } :=
    ⟨h.1, h.2.1, pickupsOK_set h.2.2 he1⟩
  have hpf := enemyPostFire_inv env
    { s with entities := s.entities.set i (homedEnemy env s.player e) } i
    (homedEnemy env s.player e) h1 he1
  exact enemyResolve_inv env _ i _ hpf.1 hpf.2

/-- The scrap branch preserves the health invariant. -/
theorem scrapStep_inv (env : Env) (s : SimState) (i : ℕ) (e : Entity)
    (h : HealthInv s) (he : healOK e) : HealthInv (scrapStep env s i e) := by
  obtain ⟨h1, h2, h3⟩ := h
  have hlp : healOK (if hypLt s.player.pos e.pos 150 then magnetLerp s.player.pos e else e) := by
    split
    · exact healOK_congr he rfl rfl
    · exact he
  rw [scrapStep_eq]
  split
  · exact ⟨h1, h2, pickupsOK_eraseIdx (pickupsOK_set h3 hlp)⟩
  · exact ⟨h1, h2, pickupsOK_set h3 hlp⟩

/-- The anomaly-core branch preserves the health invariant. -/
theorem coreStep_inv (env : Env) (s : SimState) (i : ℕ) (e : Entity)
    (h : HealthInv s) (he : healOK e) : HealthInv (coreStep env s i e) := by
  obtain ⟨h1, h2, h3⟩ := h
  have he1 : healOK { e with radius := 25 + env.sin (env.now * 0.005) * 5 } :=
    healOK_congr he rfl rfl
  unfold coreStep
  dsimp only
  split
  · exact ⟨h1, h2, pickupsOK_eraseIdx (pickupsOK_set h3 he1)⟩
  · exact ⟨h1, h2, pickupsOK_set h3 he1⟩

/-- The pickup branch preserves the health invariant: the heal is capped
by `min` at `maxHealth` and cannot drag a nonnegative health negative
since pickups heal nonnegatively. -/
theorem pickupStep_inv (env : Env) (s : SimState) (i : ℕ) (e : Entity)
    (h : HealthInv s) (he : healOK e) (hty : e.type = EntityType.HEALTH_PICKUP) :
    HealthInv (pickupStep env s i e) := by
  obtain ⟨h1, h2, h3⟩ := h
  have he1 : healOK { e with radius := 15 + env.sin (env.now * 0.005) * 2 } :=
    healOK_congr he rfl rfl
  have hv : 0 ≤ jsOrQ e.value 20 := he hty
  unfold pickupStep
  dsimp only
  split
  · refine ⟨by dsimp only; exact min_le_left _ _, ?_, ?_⟩
    · intro hlt
      dsimp only at hlt
      rcases lt_or_le s.player.health 0 with hneg | hpos
      · exact h2 hneg
      · exfalso
        have hmax : 0 ≤ s.player.maxHealth := le_trans hpos h1
        have : 0 ≤ min s.player.maxHealth (s.player.health + jsOrQ e.value 20) :=
          le_min hmax (by linarith)
        linarith
    · exact pickupsOK_eraseIdx (pickupsOK_append (pickupsOK_set h3 he1)
        (pickupsOK_particles env _ _ 10 s.rk 0))
  · exact ⟨h1, h2, pickupsOK_set h3 he1⟩

/-- One iteration of the per-entity loop preserves the health
invariant. -/
theorem stepEntity_inv (env : Env) (s : SimState) (i : ℕ)
    (h : HealthInv s) : HealthInv (stepEntity env s i) := by
  unfold stepEntity
  cases hg : s.entities.get? i with
  | none => exact h
  | some e0 =>
    have hmem : e0 ∈ s.entities := by
      obtain ⟨hlt, hh⟩ := List.get?_eq_some.mp hg
      exact hh ▸ List.get_mem _ _ _
    have he0 : healOK e0 := fun ht => h.2.2 e0 hmem ht
    have hem : healOK (moveEntity e0) := healOK_congr he0 rfl rfl
    have h1 : HealthInv { s with entities := s.entities.set i (moveEntity e0) } :=
      ⟨h.1, h.2.1, pickupsOK_set h.2.2 hem⟩
    dsimp only
    split
    · exact bulletStep_inv env _ i _ h1 hem
    · split
      · exact enemyStep_inv env _ i _ h1 hem
      · split
        · exact scrapStep_inv env _ i _ h1 hem
        · split
          · exact coreStep_inv env _ i _ h1 hem
          · split
            · rename_i hty
              exact pickupStep_inv env _ i _ h1 hem hty
            · exact h1

/-- The whole per-entity loop preserves the health invariant. -/
theorem runLoop_inv (env : Env) : ∀ (n : ℕ) (s : SimState),
    HealthInv s → HealthInv (runLoop env n s) := by
  intro n
  induction n with
  | zero => intro s h; exact h
  | succ m ih =>
    intro s h
    exact ih (stepEntity env s m) (stepEntity_inv env s m h)

/-- Player movement does not touch health. -/
theorem movePlayer_health (env : Env) (p : Entity) :
    (movePlayer env p).health = p.health ∧ (movePlayer env p).maxHealth = p.maxHealth :=
  ⟨rfl, rfl⟩

/-- The fire phase preserves the health invariant. -/
theorem shootPhase_inv (env : Env) (s : SimState) (h : HealthInv s) :
    HealthInv (shootPhase env s) := by
  obtain ⟨h1, h2, h3⟩ := h
  unfold shootPhase
  dsimp only
  split
  · refine ⟨h1, h2, pickupsOK_append h3 (pickupsOK_singleton ?_)⟩
    intro ht
    exact absurd ht (by simp)
  · exact ⟨h1, h2, h3⟩

/-- The enemy spawner preserves the health invariant. -/
theorem enemySpawnPhase_inv (env : Env) (s : SimState) (h : HealthInv s) :
    HealthInv (enemySpawnPhase env s) := by
  obtain ⟨h1, h2, h3⟩ := h
  unfold enemySpawnPhase
  dsimp only
  split
  · refine ⟨h1, h2, pickupsOK_append h3 (pickupsOK_singleton ?_)⟩
    intro ht
    exact absurd ht (by simp [spawnedEnemy])
  · exact ⟨h1, h2, h3⟩

/-- The pickup spawner preserves the health invariant (spawned pickups
heal 20 ≥ 0). -/
theorem healthSpawnPhase_inv (env : Env) (s : SimState) (h : HealthInv s) :
    HealthInv (healthSpawnPhase env s) := by
  obtain ⟨h1, h2, h3⟩ := h
  unfold healthSpawnPhase
  dsimp only
  split
  · split
    · refine ⟨h1, h2, pickupsOK_append h3 (pickupsOK_singleton ?_)⟩
      intro _
      simp [jsOrQ]
    · exact ⟨h1, h2, h3⟩
  · exact ⟨h1, h2, h3⟩

/-- The anomaly spawner preserves the health invariant. -/
theorem anomalyPhase_inv (env : Env) (s : SimState) (h : HealthInv s) :
    HealthInv (anomalyPhase env s) := by
  obtain ⟨h1, h2, h3⟩ := h
  unfold anomalyPhase
  dsimp only
  split
  · refine ⟨h1, h2, pickupsOK_append h3 (pickupsOK_singleton ?_)⟩
    intro ht
    exact absurd ht (by simp)
  · exact ⟨h1, h2, h3⟩

/-- A full tick preserves the health invariant. -/
theorem tick_inv (env : Env) (s : SimState) (h : HealthInv s) :
    HealthInv (tick env s) := by
  unfold tick
  apply runLoop_inv
  apply anomalyPhase_inv
  apply healthSpawnPhase_inv
  apply enemySpawnPhase_inv
  apply shootPhase_inv
  exact ⟨h.1, h.2.1, h.2.2⟩

/-- C1 (amended): starting a tick with `0 ≤ health ≤ maxHealth` and only
nonnegative-heal pickups in the collection, after `update` the player
health never exceeds `maxHealth`; it can end below 0 (the code has no
lower clamp), but only in a tick that requested the GAME_OVER transition
via the `≤ 0` lethality check. -/
theorem player_health_bounded (env : Env) (gs : GameState) (s : SimState)
    (h0 : 0 ≤ s.player.health) (h1 : s.player.health ≤ s.player.maxHealth)
    (hp : pickupsOK s.entities) :
    (update env gs s).player.health ≤ (update env gs s).player.maxHealth ∧
    ((update env gs s).player.health < 0 → (update env gs s).gameOverReq = true) := by
  have hinv : HealthInv s := ⟨h1, fun hlt => absurd hlt (not_lt.mpr h0), hp⟩
  unfold update
  split
  · have ht := tick_inv env s hinv
    exact ⟨ht.1, ht.2.1⟩
  · exact ⟨h1, fun hlt => absurd hlt (not_lt.mpr h0)⟩

section ConcreteEvaluation

/-  Rational arithmetic is `@[irreducible]` in the library for elaboration
performance; the closed evaluations below re-open it locally so that
`decide` can reduce the simulation on concrete inputs. -/
attribute [local semireducible] Rat.add Rat.mul Rat.inv Rat.sub Rat.ofScientific

set_option maxRecDepth 10000

/-- C1 counterexample: a player at health 5 hit by one enemy-body
collision (damage 10) ends the tick at health −5: the code never clamps
health below at 0, so health after `update` is not confined to
`[0, maxHealth]`. -/
theorem health_below_zero_after_tick :
    c1state.player.health = 5 ∧ c1state.player.maxHealth = 100 ∧
    (update testEnv GameState.PLAYING c1state).player.health = -5 ∧
    (update testEnv GameState.PLAYING c1state).player.health < 0 := by decide

/-- C3 failing input: a PARTICLE with remaining lifetime 1 is neither
decremented nor removed by `update` — after one tick (and still after 5
ticks) it persists with `life = 1`: the per-entity loop has no PARTICLE
branch. -/
theorem particle_lifetime_never_decremented :
    (update testEnv GameState.PLAYING c3state).entities.map (fun e => (e.type, e.life)) =
      [(EntityType.PARTICLE, some 1)] ∧
    ((fun s => update testEnv GameState.PLAYING s)^[5] c3state).entities.map
        (fun e => (e.type, e.life)) =
      [(EntityType.PARTICLE, some 1)] := by decide

/-- C2 failing input: with a player bullet at index 0, a one-hit enemy at
index 1 and an unrelated far-away scrap "marker" at index 2, the kill
branch removes the bullet at index 0, shifting the array, and then
`splice(i, 1)` at the enemy's stale index deletes the unrelated "marker"
while the dead enemy (health 0) stays in the collection — removal during
iteration removes a second, unrelated entity and leaves the removed-flagged
enemy to be processed again. -/
theorem splice_shift_removes_unrelated_entity :
    c2state.entities.map (fun e => e.id) = ["pb1", "enemy1", "marker"] ∧
    (update testEnv GameState.PLAYING c2state).entities.countP
        (fun e => e.id == "marker") = 0 ∧
    ((update testEnv GameState.PLAYING c2state).entities.filter
        (fun e => decide (e.type = EntityType.ENEMY))).map (fun e => e.health) = [0] ∧
    (update testEnv GameState.PLAYING c2state).score = 10 := by decide

/-- C9 failing input: two player bullets both overlapping a full-health
enemy.  In one tick the enemy consumes both bullets (none is left, and
neither could have expired with lifetime 60) and its health falls from 20
to 0, i.e. by 20 > 10: after the first (non-lethal) hit removes the
lower-indexed bullet, the array shift makes the backwards loop revisit the
same enemy in the same tick. -/
theorem enemy_double_bullet_hit_one_tick :
    c9state.entities.countP (fun e => decide (e.type = EntityType.BULLET)) = 2 ∧
    (enemyAt ⟨110, 100⟩ 20).health = 20 ∧
    (update testEnv GameState.PLAYING c9state).entities.countP
        (fun e => decide (e.type = EntityType.BULLET)) = 0 ∧
    ((update testEnv GameState.PLAYING c9state).entities.filter
        (fun e => decide (e.type = EntityType.ENEMY))).map (fun e => e.health) = [0] := by decide

/-- C8 scenario: health 100, one enemy-body collision (damage 10, burst of
5 particles) followed by one enemy-bullet hit (damage 5, burst of 3
particles) yields health exactly 85; both colliders are removed and only
the 8 queued particles remain; the authoritative score is untouched and no
game over is requested. -/
theorem enemy_collision_then_bullet_scenario :
    c8state.player.health = 100 ∧
    (update testEnv GameState.PLAYING c8state).player.health = 85 ∧
    (update testEnv GameState.PLAYING c8state).entities.map (fun e => e.type) =
      List.replicate 8 EntityType.PARTICLE ∧
    (update testEnv GameState.PLAYING c8state).score = c8state.score ∧
    (update testEnv GameState.PLAYING c8state).gameOverReq = false := by decide

/-- C7 counterexample: a scrap 145 units from the player (inside the
150-unit magnet range, nonzero distance) whose distance to the player
strictly increases over the tick, because the drifting player leaves the
(post-movement) magnet range; the scrap survives uncollected. -/
theorem scrap_distance_not_decreased :
    dist2 c7state.player.pos ⟨355, 500⟩ < 150 * 150 ∧
    dist2 c7state.player.pos ⟨355, 500⟩ ≠ 0 ∧
    (update testEnv GameState.PLAYING c7state).entities =
      [scrapAt "sc1" ⟨355, 500⟩ ⟨0, 0⟩] ∧
    dist2 (update testEnv GameState.PLAYING c7state).player.pos ⟨355, 500⟩ >
      dist2 c7state.player.pos ⟨355, 500⟩ ∧
    (update testEnv GameState.PLAYING c7state).scrapStat = c7state.scrapStat := by decide

/-- C6 counterexample: 60 consecutive spawner ticks from a fresh state
spawn no enemy at all (the counter must strictly exceed 60, so the period
is 61 ticks, not 60). -/
theorem sixty_ticks_spawn_no_enemy :
    typeCount EntityType.ENEMY (((enemySpawnPhase testEnv)^[60]) baseState).entities = 0 ∧
    (((enemySpawnPhase testEnv)^[60]) baseState).enemySpawnTimer = 60 := by decide

/-- C6 witness: with the counter at 60 the next tick spawns the enemy and
resets the counter, and 61 ticks from a fresh state spawn exactly one. -/
theorem enemy_spawn_period_61_witness :
    (60 < c6state.enemySpawnTimer + 1 ∧
      (enemySpawnPhase testEnv c6state).entities =
        c6state.entities ++ [spawnedEnemy testEnv c6state.rk] ∧
      (enemySpawnPhase testEnv c6state).enemySpawnTimer = 0) ∧
    (baseState.enemySpawnTimer = 0 ∧
      typeCount EntityType.ENEMY (((enemySpawnPhase testEnv)^[61]) baseState).entities =
        typeCount EntityType.ENEMY baseState.entities + 1) :=
  ⟨⟨by decide, (enemy_spawn_period_61 testEnv c6state).1 (by decide)⟩,
    by decide, (enemy_spawn_period_61 testEnv baseState).2.2.1 (by decide)⟩

/-- C4 witness: at score 500 from a fresh run the phase spawns one core
and moves the watermark to 500. -/
theorem anomaly_threshold_watermark_witness :
    (500 ≤ c4state.score - c4state.lastAnomalyScore) ∧
    typeCount EntityType.ANOMALY_CORE (anomalyPhase testEnv c4state).entities =
      typeCount EntityType.ANOMALY_CORE c4state.entities + 1 ∧
    (anomalyPhase testEnv c4state).lastAnomalyScore = c4state.score :=
  ⟨by decide, ((anomaly_threshold_watermark testEnv c4state).1 (by decide)).1,
    ((anomaly_threshold_watermark testEnv c4state).1 (by decide)).2.1⟩

/-- C7 witness: at distance 10 the scrap is collected (stat grows by its
value); at distance 100 the magnet strictly pulls it closer. -/
theorem scrap_magnet_toward_player_witness :
    (hypLt c7colState.player.pos (moveEntity (scrapAt "w1" ⟨510, 500⟩ ⟨0, 0⟩)).pos
        (c7colState.player.radius + (scrapAt "w1" ⟨510, 500⟩ ⟨0, 0⟩).radius) = true ∧
      (stepEntity testEnv c7colState 0).scrapStat =
        c7colState.scrapStat + jsOrQ (scrapAt "w1" ⟨510, 500⟩ ⟨0, 0⟩).value 1) ∧
    (hypLt c7magState.player.pos (moveEntity (scrapAt "w2" ⟨400, 500⟩ ⟨0, 0⟩)).pos 150 = true ∧
      dist2 c7magState.player.pos
          (magnetLerp c7magState.player.pos (moveEntity (scrapAt "w2" ⟨400, 500⟩ ⟨0, 0⟩))).pos <
        dist2 c7magState.player.pos (moveEntity (scrapAt "w2" ⟨400, 500⟩ ⟨0, 0⟩)).pos) :=
  ⟨⟨by decide,
      ((scrap_magnet_toward_player testEnv c7colState 0 (scrapAt "w1" ⟨510, 500⟩ ⟨0, 0⟩)
          (by decide) (by decide)).1 (by decide)).1⟩,
    ⟨by decide,
      ((scrap_magnet_toward_player testEnv c7magState 0 (scrapAt "w2" ⟨400, 500⟩ ⟨0, 0⟩)
          (by decide) (by decide)).2 (by decide) (by decide)).2.2 (by decide)⟩⟩

/-- C10 witness: an enemy touching the player is removed with the score,
scrap count and scrap stat unchanged. -/
theorem enemy_removal_frame_effects_witness :
    c10state.entities.get? 0 = some (enemyAt ⟨520, 500⟩ 20) ∧
    hypLt c10state.player.pos (moveEntity (enemyAt ⟨520, 500⟩ 20)).pos
        (c10state.player.radius + (enemyAt ⟨520, 500⟩ 20).radius) = true ∧
    (stepEntity testEnv c10state 0).score = c10state.score ∧
    typeCount EntityType.SCRAP (stepEntity testEnv c10state 0).entities =
      typeCount EntityType.SCRAP c10state.entities :=
  ⟨by decide, by decide,
    ((enemy_removal_frame_effects testEnv c10state 0 (enemyAt ⟨520, 500⟩ 20)
        (by decide) (by decide)).1 (by decide)).1,
    ((enemy_removal_frame_effects testEnv c10state 0 (enemyAt ⟨520, 500⟩ 20)
        (by decide) (by decide)).1 (by decide)).2.1⟩

/-- C1 witness: from the freshly initialised state one tick keeps health
within its upper bound. -/
theorem player_health_bounded_witness :
    (0 ≤ baseState.player.health ∧ baseState.player.health ≤ baseState.player.maxHealth) ∧
    (update testEnv GameState.PLAYING baseState).player.health ≤
      (update testEnv GameState.PLAYING baseState).player.maxHealth :=
  ⟨⟨by decide, by decide⟩,
    (player_health_bounded testEnv GameState.PLAYING baseState (by decide) (by decide)
      (fun e he => absurd he (List.not_mem_nil e))).1⟩

end ConcreteEvaluation

end VibeShooter
